import Mathlib

/-!
Shallow embedding of the linkit-backend order workflow:
form-data normalization and validators (`src/utils/orderValidation.js`),
file path resolution (`src/unnamed/part_001`, the upload helper module),
the order controller (`src/unnamed/part_000`) and the product model
pre-save hooks (`src/models/productModel.js`).

JavaScript objects whose shape matters are embedded as structures with
`Option` fields (a `none` field is an absent / `undefined` property);
flat form bodies are association lists in insertion order, mirroring
object key order.  Helper functions that live in modules not present in
the source snapshot (`orderUtils.js`, the order model) are modelled from
the specification and carry a doc comment saying so.
-/

/-- A JavaScript value as it can appear in a request body. -/
inductive JSValue where
  | vStr (s : String)
  | vNum (n : Int)
  | vBool (b : Bool)
  | vNull
deriving DecidableEq

/-- `true` exactly for string values. -/
def JSValue.isStr : JSValue → Bool
  | .vStr _ => true
  | _ => false

/-- JavaScript truthiness of an embedded value. -/
def jsTruthy : JSValue → Bool
  | .vStr s => !(s == "")
  | .vNum n => !(n == 0)
  | .vBool b => b
  | .vNull => false

/-- JavaScript truthiness of an optional string property
(absent and the empty string are falsy). -/
def strTruthy : Option String → Bool
  | none => false
  | some s => !(s == "")

/-- JavaScript truthiness of an optional boolean property. -/
def optTruthy (o : Option Bool) : Bool :=
  o == some true

/-- JavaScript `a || b` on two optional string properties. -/
def jsOrStr (a b : Option String) : Option String :=
  if strTruthy a then a else b

/-- Property lookup in an object embedded as an association list. -/
def lookupEntry (k : String) : List (String × α) → Option α
  | [] => none
  | (k0, v0) :: rest => if k0 = k then some v0 else lookupEntry k rest

/-- JavaScript property assignment `obj[k] = v`: overwrite in place,
append at the end when the key is new (insertion order preserved). -/
def setEntry (k : String) (v : α) : List (String × α) → List (String × α)
  | [] => [(k, v)]
  | (k0, v0) :: rest => if k0 = k then (k, v) :: rest else (k0, v0) :: setEntry k v rest

/-- Remove the first occurrence of a character, as
`String.prototype.replace` with a single-character pattern does. -/
def removeFirst (c : Char) : List Char → List Char
  | [] => []
  | x :: xs => if x = c then xs else x :: removeFirst c xs

/-- `a.startsWith(b)` (kernel-reducible variant). -/
def startsWithS (s pre : String) : Bool :=
  pre.toList.isPrefixOf s.toList

/-- `s.includes(c)` for a single character (kernel-reducible variant). -/
def containsCh (s : String) (c : Char) : Bool :=
  s.toList.contains c

/-- `s.toLowerCase()` (kernel-reducible variant). -/
def lowerS (s : String) : String :=
  String.mk (s.toList.map Char.toLower)

/-- `s.split(sep)[0]` for a single-character separator. -/
def splitSeg0 (c : Char) (s : String) : String :=
  String.mk (s.toList.takeWhile (fun x => !(x = c)))

/-- `s.split(sep)[1]` for a single-character separator (the segment
between the first and second occurrence). -/
def splitSeg1 (c : Char) (s : String) : String :=
  String.mk (((s.toList.dropWhile (fun x => !(x = c))).drop 1).takeWhile (fun x => !(x = c)))

/-- `key.replace(pre, '').replace(']', '')` for a key known to start
with the prefix `pre`: drop the prefix, then drop the first `]`. -/
def bracketKeyTail (preLen : Nat) (key : String) : String :=
  String.mk (removeFirst ']' (key.toList.drop preLen))

/-- Value of a digit run, `none` when the run is empty (`NaN`). -/
def digitsToNat : List Char → Option Nat
  | [] => none
  | cs => some (cs.foldl (fun a c => a * 10 + (c.toNat - 48)) 0)

/-- JavaScript `parseInt` on a string: optional sign then leading
digits; `none` models `NaN`. -/
def jsParseInt (s : String) : Option Int :=
  let cs := s.toList.dropWhile (fun c => c = ' ')
  match cs with
  | '-' :: rest => (digitsToNat (rest.takeWhile (fun c => c.isDigit))).map (fun n => -(n : Int))
  | '+' :: rest => (digitsToNat (rest.takeWhile (fun c => c.isDigit))).map (fun n => (n : Int))
  | _ => (digitsToNat (cs.takeWhile (fun c => c.isDigit))).map (fun n => (n : Int))

/-- The property key produced by using a `parseInt` result as an index:
`String(parseInt(s))`, which is `"NaN"` when the parse fails. -/
def jsIndexKey (s : String) : String :=
  match jsParseInt s with
  | some n => toString n
  | none => "NaN"

/-- A value stored under `parsedBody.personalInfo`: either a plain form
value or a (sparse) array object addressed by stringified indices. -/
inductive PIValue where
  | plain (v : JSValue)
  | arr (elems : List (String × JSValue))

/-- The three nested groups accumulated by `parseFormData`. -/
structure ParsedGroups where
  personalInfo : List (String × PIValue)
  cardDesign : List (String × JSValue)
  deliveryInfo : List (String × JSValue)

/-- The `personalInfo` branch of the `parseFormData` key loop
(orderValidation.js lines 133-145), including the numeric-indexed
array handling. -/
def collectPI (acc : List (String × PIValue)) (key : String) (v : JSValue) : List (String × PIValue) :=
  let nestedKey := bracketKeyTail 13 key
  if containsCh nestedKey '[' && containsCh nestedKey ']' then
    let arrayKey := splitSeg0 '[' nestedKey
    let idxKey := jsIndexKey (String.mk (removeFirst ']' (splitSeg1 '[' nestedKey).toList))
    match lookupEntry arrayKey acc with
    | some (.arr elems) => setEntry arrayKey (.arr (setEntry idxKey v elems)) acc
    | some (.plain pv) =>
        -- a truthy primitive is kept; writing a property on it is a
        -- silent no-op in sloppy mode
        if jsTruthy pv then acc
        else setEntry arrayKey (.arr (setEntry idxKey v [])) acc
    | none => setEntry arrayKey (.arr (setEntry idxKey v [])) acc
  else setEntry nestedKey (.plain v) acc

/-- One iteration of the `for (const key in req.body)` loop of
`parseFormData` (orderValidation.js lines 132-153). -/
def collectOne (acc : ParsedGroups) (kv : String × JSValue) : ParsedGroups :=
  if startsWithS kv.1 "personalInfo[" then
    { acc with personalInfo := collectPI acc.personalInfo kv.1 kv.2 }
  else if startsWithS kv.1 "cardDesign[" then
    { acc with cardDesign := setEntry (bracketKeyTail 11 kv.1) kv.2 acc.cardDesign }
  else if startsWithS kv.1 "deliveryInfo[" then
    { acc with deliveryInfo := setEntry (bracketKeyTail 13 kv.1) kv.2 acc.deliveryInfo }
  else acc

/-- The whole key-collection loop of `parseFormData`. -/
def collectGroups (body : List (String × JSValue)) : ParsedGroups :=
  body.foldl collectOne ⟨[], [], []⟩

/-- The string-boolean coercion applied to `includePrintedLogo` and
`useSameContact`: when the key is present (`!== undefined`) its value
becomes `v === 'true' || v === true`. -/
def coerceBoolAt (k : String) (g : List (String × JSValue)) : List (String × JSValue) :=
  match lookupEntry k g with
  | none => g
  | some v => setEntry k (.vBool (v == .vStr "true" || v == .vBool true)) g

/-- The color canonicalization of `parseFormData` (lines 171-178);
calling `toLowerCase` on a truthy non-string value throws. -/
def colorStep (g : List (String × JSValue)) : Except String (List (String × JSValue)) :=
  match lookupEntry "color" g with
  | none => .ok g
  | some v =>
    if jsTruthy v then
      match v with
      | .vStr s =>
        let c := lowerS s
        if c == "#000" || c == "#000000" || c == "black" then
          .ok (setEntry "color" (.vStr "black") g)
        else if c == "#fff" || c == "#ffffff" || c == "white" then
          .ok (setEntry "color" (.vStr "white") g)
        else .ok g
      | _ => .error "TypeError: toLowerCase is not a function"
    else .ok g

/-- Post-processing of the collected `cardDesign` group: assigned only
when non-empty, then boolean coercion, then color normalization. -/
def cdResult (cd : List (String × JSValue)) : Except String (Option (List (String × JSValue))) :=
  if cd.isEmpty then .ok none
  else (colorStep (coerceBoolAt "includePrintedLogo" cd)).map some

/-- The request body after `parseFormData` ran: the original flat keys
plus the three nested groups, each set only when non-empty. -/
structure ParsedBody where
  raw : List (String × JSValue)
  personalInfo : Option (List (String × PIValue))
  cardDesign : Option (List (String × JSValue))
  deliveryInfo : Option (List (String × JSValue))

/-- `parseFormData` (orderValidation.js lines 121-197).  An `.error`
result models a thrown exception. -/
def parseFormData (body : List (String × JSValue)) : Except String ParsedBody :=
  let g := collectGroups body
  let piGroup := if g.personalInfo.isEmpty then none else some g.personalInfo
  match cdResult g.cardDesign with
  | .error e => .error e
  | .ok cdGroup =>
    let diGroup :=
      if g.deliveryInfo.isEmpty then none
      else some (coerceBoolAt "useSameContact" g.deliveryInfo)
    .ok ⟨body, piGroup, cdGroup, diGroup⟩

/-- Whether an `Except` result is a success. -/
def exIsOk : Except ε α → Bool
  | .ok _ => true
  | .error _ => false

/-- The error payload of an `Except` result, if any. -/
def exErr : Except String α → Option String
  | .ok _ => none
  | .error e => some e

/-- The final `cardDesign.includePrintedLogo` value after
`parseFormData`, used to state results about the coercion. -/
def iplResult (e : Except String ParsedBody) : Option JSValue :=
  match e with
  | .ok r =>
    match r.cardDesign with
    | some g => lookupEntry "includePrintedLogo" g
    | none => none
  | .error _ => none

/-- The `cardDesign` sub-object of an order. -/
structure CardDesign where
  color : Option String
  includePrintedLogo : Option Bool
  companyLogo : Option String
deriving DecidableEq

/-- The `deliveryInfo` sub-object of an order. -/
structure DeliveryInfo where
  country : Option String
  city : Option String
  address : Option String
  useSameContact : Option Bool
deriving DecidableEq

/-- The `personalInfo` sub-object of an order. -/
structure PersonalInfo where
  name : Option String
  email : Option String
deriving DecidableEq

/-- A multer upload record: the absolute stored path and the generated
filename. -/
structure MulterFile where
  path : String
  filename : String
deriving DecidableEq

/-- The `req.files` mapping as the order routes use it. -/
structure UploadedFiles where
  companyLogo : Option (List MulterFile)
deriving DecidableEq

/-- The slice of a stored order the update validators read. -/
structure StoredOrder where
  cardDesign : Option CardDesign
  deliveryInfo : Option DeliveryInfo
deriving DecidableEq

/-- `cardDesign.companyLogo` is truthy on the incoming design object. -/
def hasLogoValue (cd : CardDesign) : Bool :=
  strTruthy cd.companyLogo

/-- `files.companyLogo && files.companyLogo.length > 0`. -/
def hasUploadedFile (files : UploadedFiles) : Bool :=
  match files.companyLogo with
  | some l => !l.isEmpty
  | none => false

/-- `existingOrder?.cardDesign?.companyLogo` is truthy. -/
def hasStoredLogo (existingOrder : Option StoredOrder) : Bool :=
  strTruthy (existingOrder.bind (fun o => o.cardDesign.bind (fun c => c.companyLogo)))

/-- `validateCompanyLogo` (orderValidation.js lines 16-34). -/
def validateCompanyLogo (cardDesign : Option CardDesign) (files : UploadedFiles)
    (existingOrder : Option StoredOrder) : Option String :=
  match cardDesign with
  | none => none
  | some cd =>
    if cd.includePrintedLogo != some true then none
    else
      let hasUploadedLogo := hasLogoValue cd || hasUploadedFile files
      let hasExistingLogo := hasStoredLogo existingOrder
      if !hasUploadedLogo && !hasExistingLogo then
        some "Company logo is required when printed logo is selected"
      else none

/-- The static `COUNTRY_CITY_MAP` whitelist. -/
def COUNTRY_CITY_MAP : List (String × List String) :=
  [("JO", ["Amman", "Irbid", "Zarqa", "Aqaba", "Salt"]),
   ("UK", ["London", "Manchester", "Birmingham", "Liverpool", "Bristol"])]

/-- Wrap a string in single quotes, as the template literals do. -/
def quoteSq (s : String) : String :=
  String.mk (Char.ofNat 39 :: (s.toList ++ [Char.ofNat 39]))

/-- `validateCountryCity` (orderValidation.js lines 42-60). -/
def validateCountryCity (country city : Option String) : Option String :=
  match country, city with
  | some c, some ci =>
    if c == "" || ci == "" then none
    else
      match lookupEntry c COUNTRY_CITY_MAP with
      | none =>
        some ("Invalid country " ++ quoteSq c ++ ". Available countries are: "
          ++ String.intercalate ", " (COUNTRY_CITY_MAP.map (fun p => p.1)))
      | some validCities =>
        if validCities.contains ci then none
        else
          some ("Invalid city " ++ quoteSq ci ++ " for country " ++ quoteSq c
            ++ ". Valid cities are: " ++ String.intercalate ", " validCities)
  | _, _ => none

/-- `validateDeliveryInfo` (orderValidation.js lines 68-76). -/
def validateDeliveryInfo (deliveryInfo : Option DeliveryInfo)
    (existingOrder : Option StoredOrder) : Option String :=
  match deliveryInfo with
  | none => none
  | some d =>
    let country := jsOrStr d.country (existingOrder.bind (fun o => o.deliveryInfo.bind (fun x => x.country)))
    let city := jsOrStr d.city (existingOrder.bind (fun o => o.deliveryInfo.bind (fun x => x.city)))
    validateCountryCity country city

/-- The typed request body the order controller works on. -/
structure OrderBody where
  personalInfo : Option PersonalInfo
  cardDesign : Option CardDesign
  deliveryInfo : Option DeliveryInfo
  product : Option String
  customer : Option String
  createdBy : Option String
  status : Option String
  notes : Option String
  productPrice : Option Int
  logoSurcharge : Option Int
  total : Option Int
deriving DecidableEq

/-- `validateRequiredFields` (orderValidation.js lines 83-101). -/
def validateRequiredFields (b : OrderBody) : Option String :=
  if b.personalInfo = none then some "Personal information is required"
  else if b.cardDesign = none then some "Card design information is required"
  else if b.deliveryInfo = none then some "Delivery information is required"
  else if !(strTruthy b.product) then some "Product ID is required"
  else none

/-- Modelled from the spec: the fixed positive logo surcharge of the
pricing calculator (`orderUtils.js` is not in the source snapshot; the
spec fixes no numeric value, only that the surcharge is a fixed positive
constant). -/
def logoSurchargeFee : Int := 5

/-- Modelled from the spec: `calculateOrderTotal(productPrice,
includePrintedLogo)` from the missing `orderUtils.js` — deterministic,
fixed surcharge when the flag is true and zero otherwise, total is the
sum; returned here as the pair `(total, logoSurcharge)`. -/
def calculateOrderTotal (productPrice : Int) (includePrintedLogo : Bool) : Int × Int :=
  let logoSurcharge := if includePrintedLogo then logoSurchargeFee else 0
  (productPrice + logoSurcharge, logoSurcharge)

/-- Index of the first occurrence of `needle` in `hay`
(JavaScript `String.prototype.indexOf`). -/
def substrIndexAux (needle : List Char) : List Char → Option Nat
  | [] => if needle.isEmpty then some 0 else none
  | c :: t =>
    if needle.isPrefixOf (c :: t) then some 0
    else (substrIndexAux needle t).map (fun n => n + 1)

/-- `getRelativeFilePath` (fileUpload module, lines 90-99): strip
everything up to and including the literal `public` segment, falling
back to the bare filename when that segment is absent. -/
def getRelativeFilePath (file : Option MulterFile) : Option String :=
  match file with
  | none => none
  | some f =>
    match substrIndexAux "public".toList f.path.toList with
    | some i => some (String.mk (f.path.toList.drop (i + 6)))
    | none => some f.filename

/-- Modelled from the spec: `processOrderFiles(files, body)` from the
missing `orderUtils.js` — resolves an uploaded `companyLogo` to its
public-relative path and writes it into `cardDesign.companyLogo`,
creating the `cardDesign` object if needed; a no-op otherwise. -/
def processOrderFiles (files : UploadedFiles) (body : OrderBody) : OrderBody :=
  match files.companyLogo with
  | some (f :: _) =>
    let cd := body.cardDesign.getD ⟨none, none, none⟩
    { body with cardDesign := some { cd with companyLogo := getRelativeFilePath (some f) } }
  | _ => body

/-- Modelled from the spec: `setOrderDefaults(body, user)` from the
missing `orderUtils.js` — applies the default status and the owner /
customer taken from the acting identity; it does not touch the pricing
fields. -/
def setOrderDefaults (user : String) (body : OrderBody) : OrderBody :=
  { body with
    status := some (body.status.getD "pending")
    customer := some (body.customer.getD user)
    createdBy := some user }

/-- The product record slice the order controller reads. -/
structure ProductRec where
  price : Int
deriving DecidableEq

/-- The persisted order produced by `Order.create(req.body)`. -/
structure CreatedOrder where
  customer : Option String
  product : Option String
  personalInfo : Option PersonalInfo
  cardDesign : Option CardDesign
  deliveryInfo : Option DeliveryInfo
  productPrice : Int
  logoSurcharge : Int
  total : Int
  status : Option String
  createdBy : Option String
  notes : Option String
deriving DecidableEq

/-- `createOrder` (order controller, lines 30-85).  `findProduct` stands
for `Product.findById`; an `.error` result is a `next(new AppError(...))`
with its HTTP status code. -/
def createOrder (findProduct : String → Option ProductRec) (user : String)
    (files : UploadedFiles) (body0 : OrderBody) : Except (String × Nat) CreatedOrder :=
  let body := setOrderDefaults user body0
  match validateRequiredFields body with
  | some e => .error (e, 400)
  | none =>
    match (match body.product with | some pid => findProduct pid | none => none) with
    | none => .error ("Product not found", 404)
    | some product =>
      let body := processOrderFiles files body
      let pricing := calculateOrderTotal product.price
        (optTruthy (body.cardDesign.bind (fun c => c.includePrintedLogo)))
      let body := { body with
        productPrice := some product.price
        total := some pricing.1
        logoSurcharge := some pricing.2 }
      match validateCompanyLogo body.cardDesign files none with
      | some e => .error (e, 400)
      | none =>
        match validateDeliveryInfo body.deliveryInfo none with
        | some e => .error (e, 400)
        | none =>
          .ok { customer := body.customer
                product := body.product
                personalInfo := body.personalInfo
                cardDesign := body.cardDesign
                deliveryInfo := body.deliveryInfo
                productPrice := body.productPrice.getD 0
                logoSurcharge := body.logoSurcharge.getD 0
                total := body.total.getD 0
                status := body.status
                createdBy := body.createdBy
                notes := body.notes }

/-- A value in the sparse `$set` payload of an order update. -/
inductive UpdateVal where
  | uStr (s : String)
  | uBool (b : Bool)
deriving DecidableEq

/-- An entry for an optional string field, present only when supplied. -/
def optEntry (k : String) (v : Option String) : List (String × UpdateVal) :=
  match v with
  | some s => [(k, .uStr s)]
  | none => []

/-- An entry for an optional boolean field, present only when supplied. -/
def optBoolEntry (k : String) (v : Option Bool) : List (String × UpdateVal) :=
  match v with
  | some b => [(k, .uBool b)]
  | none => []

/-- Modelled from the spec: `buildOrderUpdateObject(body)` from the
missing `orderUtils.js` — a sparse dotted-path update set containing
only the explicitly supplied recognized fields. -/
def buildOrderUpdateObject (body : OrderBody) : List (String × UpdateVal) :=
  (match body.personalInfo with
   | some p => optEntry "personalInfo.name" p.name ++ optEntry "personalInfo.email" p.email
   | none => [])
  ++ (match body.cardDesign with
      | some c =>
        optEntry "cardDesign.color" c.color
          ++ optBoolEntry "cardDesign.includePrintedLogo" c.includePrintedLogo
          ++ optEntry "cardDesign.companyLogo" c.companyLogo
      | none => [])
  ++ (match body.deliveryInfo with
      | some d =>
        optEntry "deliveryInfo.country" d.country ++ optEntry "deliveryInfo.city" d.city
          ++ optEntry "deliveryInfo.address" d.address
          ++ optBoolEntry "deliveryInfo.useSameContact" d.useSameContact
      | none => [])
  ++ optEntry "notes" body.notes

/-- `updateOrder` (order controller, lines 88-146), up to the `$set`
payload handed to `findByIdAndUpdate`.  Note line 122 stores the raw
`req.files.companyLogo[0].path`, not the resolved relative path. -/
def updateOrder (findOrder : String → Option StoredOrder) (id : String)
    (files : UploadedFiles) (body0 : OrderBody) : Except (String × Nat) (List (String × UpdateVal)) :=
  match findOrder id with
  | none => .error ("No order found with that ID", 404)
  | some existingOrder =>
    let body := processOrderFiles files body0
    match validateCompanyLogo body.cardDesign files (some existingOrder) with
    | some e => .error (e, 400)
    | none =>
      match validateDeliveryInfo body.deliveryInfo (some existingOrder) with
      | some e => .error (e, 400)
      | none =>
        let updateData := buildOrderUpdateObject body
        let updateData :=
          match files.companyLogo with
          | some (f :: _) => setEntry "cardDesign.companyLogo" (.uStr f.path) updateData
          | some [] => updateData
          | none => updateData
        if updateData = [] then .error ("No valid fields provided for update", 400)
        else .ok updateData

/-- The slice of an order the status route touches. -/
structure StatusOrder where
  status : String
  notes : Option String
deriving DecidableEq

/-- Modelled from the spec: the recognized status values of the order
state machine ("pending, confirmed, printed, shipped, delivered,
cancelled"). -/
def validStatuses : List String :=
  ["pending", "confirmed", "printed", "shipped", "delivered", "cancelled"]

/-- Modelled from the spec: the order model's `updateStatus` instance
method (the order model file is not in the source snapshot) — any
recognized status is accepted and assigned, anything else throws. -/
def updateStatus (order : StatusOrder) (s : String) : Except String StatusOrder :=
  if validStatuses.contains s then .ok { order with status := s }
  else .error ("Invalid status: " ++ s)

/-- `updateOrderStatus` (order controller, lines 149-201): returns the
persisted order together with the response message. -/
def updateOrderStatus (findOrder : String → Option StatusOrder) (id : String)
    (status notes : Option String) : Except (String × Nat) (StatusOrder × String) :=
  match status with
  | none => .error ("Please provide a status", 400)
  | some s =>
    if s == "" then .error ("Please provide a status", 400)
    else
      match findOrder id with
      | none => .error ("No order found with that ID", 404)
      | some order =>
        match updateStatus order s with
        | .error e => .error (e, 400)
        | .ok o1 =>
          let o2 := if strTruthy notes then { o1 with notes := notes } else o1
          let message :=
            if s == "confirmed" then "Order confirmed! Your NFC card will be printed soon."
            else if s == "printed" then "Your NFC card has been printed and is ready for shipping!"
            else if s == "shipped" then "Your NFC card has been shipped! You will receive it soon."
            else if s == "delivered" then "Order delivered successfully! Thank you for your business."
            else "Order status updated to " ++ s
          .ok (o2, message)

/-- The product document slice the pre-save hooks touch. -/
structure ProductDoc where
  title : String
  price : Int
  images : List String
  isNew : Bool
  updatedAt : Nat
deriving DecidableEq

/-- First `pre('save')` hook of the product schema (lines 118-123):
refresh `updatedAt` on non-new documents. -/
def preSaveTimestamp (now : Nat) (p : ProductDoc) : ProductDoc :=
  if !p.isNew then { p with updatedAt := now } else p

/-- Second `pre('save')` hook (lines 126-131): push the default image
when the image list is empty. -/
def preSaveDefaultImage (p : ProductDoc) : ProductDoc :=
  if p.images = [] then { p with images := ["/img/products/default-product.jpg"] }
  else p

/-- A successful save runs both pre-save hooks in registration order
before persisting. -/
def saveProduct (now : Nat) (p : ProductDoc) : ProductDoc :=
  preSaveDefaultImage (preSaveTimestamp now p)

/-! ## Concrete fixtures used by witnesses -/

/-- A flat form body carrying both coerced boolean keys. -/
def bodyW6 : List (String × JSValue) :=
  [("cardDesign[includePrintedLogo]", .vStr "false"), ("deliveryInfo[useSameContact]", .vStr "true")]

/-- The parse result of `bodyW6`. -/
def parsedW6 : ParsedBody :=
  ⟨bodyW6, none, some [("includePrintedLogo", .vBool false)], some [("useSameContact", .vBool true)]⟩

/-- No uploads present. -/
def noUploads : UploadedFiles := ⟨none⟩

/-- An uploaded company logo stored under the public asset root. -/
def filesW5 : UploadedFiles :=
  ⟨some [⟨"/app/public/uploads/companyLogo/logo-1.png", "logo-1.png"⟩]⟩

/-- A request body supplying nothing. -/
def emptyOrderBody : OrderBody :=
  ⟨none, none, none, none, none, none, none, none, none, none, none⟩

/-- A one-product catalog: `p1` costs 20. -/
def findProductW9 : String → Option ProductRec :=
  fun pid => if pid = "p1" then some ⟨20⟩ else none

/-- A creation body for `p1` with the printed-logo flag set, a logo
path supplied, a whitelisted destination, and bogus client-supplied
pricing fields. -/
def bodyW9 : OrderBody :=
  ⟨some ⟨some "Ali", none⟩, some ⟨none, some true, some "/uploads/companyLogo/x.png"⟩,
   some ⟨some "JO", some "Amman", none, none⟩, some "p1", none, none, none, none,
   some 999, some 999, some 999⟩

/-- The order `createOrder` persists from `bodyW9`. -/
def orderW9 : CreatedOrder :=
  ⟨some "u1", some "p1", some ⟨some "Ali", none⟩,
   some ⟨none, some true, some "/uploads/companyLogo/x.png"⟩,
   some ⟨some "JO", some "Amman", none, none⟩, 20, 5, 25, some "pending", some "u1", none⟩

/-! ## Helper lemmas about association-list objects -/

theorem lookupEntry_mem {α : Type} {k : String} {v : α} :
    ∀ {l : List (String × α)}, lookupEntry k l = some v → (k, v) ∈ l := by
  intro l
  induction l with
  | nil => intro h; cases h
  | cons hd tl ih =>
    obtain ⟨k0, v0⟩ := hd
    intro h
    unfold lookupEntry at h
    by_cases hk : k0 = k
    · rw [if_pos hk] at h
      obtain rfl := Option.some.inj h
      subst hk
      exact List.mem_cons_self _ _
    · rw [if_neg hk] at h
      exact List.mem_cons_of_mem _ (ih h)

theorem lookupEntry_setEntry_self {α : Type} (k : String) (v : α) :
    ∀ l : List (String × α), lookupEntry k (setEntry k v l) = some v := by
  intro l
  induction l with
  | nil => simp [setEntry, lookupEntry]
  | cons hd tl ih =>
    obtain ⟨k0, v0⟩ := hd
    unfold setEntry
    by_cases hk : k0 = k
    · rw [if_pos hk]; simp [lookupEntry]
    · rw [if_neg hk]
      unfold lookupEntry
      rw [if_neg hk]
      exact ih

theorem lookupEntry_setEntry_ne {α : Type} {k k2 : String} (h : ¬ k2 = k) (v : α) :
    ∀ l : List (String × α), lookupEntry k (setEntry k2 v l) = lookupEntry k l := by
  intro l
  induction l with
  | nil => simp [setEntry, lookupEntry, h]
  | cons hd tl ih =>
    obtain ⟨k0, v0⟩ := hd
    unfold setEntry
    by_cases hk : k0 = k2
    · rw [if_pos hk]
      unfold lookupEntry
      subst hk
      rw [if_neg h, if_neg h]
    · rw [if_neg hk]
      unfold lookupEntry
      by_cases hk0 : k0 = k
      · rw [if_pos hk0, if_pos hk0]
      · rw [if_neg hk0, if_neg hk0]
        exact ih

theorem mem_setEntry {α : Type} {k : String} {v : α} :
    ∀ {l : List (String × α)} {x : String × α}, x ∈ setEntry k v l → x = (k, v) ∨ x ∈ l := by
  intro l
  induction l with
  | nil => intro x hx; simp [setEntry] at hx; exact Or.inl hx
  | cons hd tl ih =>
    obtain ⟨k0, v0⟩ := hd
    intro x hx
    unfold setEntry at hx
    by_cases hk : k0 = k
    · rw [if_pos hk] at hx
      rcases List.mem_cons.mp hx with h | h
      · exact Or.inl h
      · exact Or.inr (List.mem_cons_of_mem _ h)
    · rw [if_neg hk] at hx
      rcases List.mem_cons.mp hx with h | h
      · exact Or.inr (by rw [h]; exact List.mem_cons_self _ _)
      · rcases ih h with h2 | h2
        · exact Or.inl h2
        · exact Or.inr (List.mem_cons_of_mem _ h2)

/-! ## Claim C1: pricing calculator -/

/-- C1: for every price and printed-logo flag, `calculateOrderTotal` is
a pure pair `(total, logoSurcharge)` with `total = price + surcharge`,
and the surcharge is zero exactly when the flag is false — a fixed
positive constant when it is true. -/
theorem C1_calculateOrderTotal (p : Int) (b : Bool) :
    (calculateOrderTotal p b).1 = p + (calculateOrderTotal p b).2
    ∧ ((calculateOrderTotal p b).2 = 0 ↔ b = false)
    ∧ (b = true → (calculateOrderTotal p b).2 = logoSurchargeFee ∧ 0 < logoSurchargeFee) := by
  cases b <;> simp [calculateOrderTotal, logoSurchargeFee]

/-- Witness for C1 at price 20 with the flag set. -/
theorem C1_witness :
    (calculateOrderTotal 20 true).1 = 20 + (calculateOrderTotal 20 true).2
    ∧ ((calculateOrderTotal 20 true).2 = 0 ↔ true = false)
    ∧ (true = true → (calculateOrderTotal 20 true).2 = logoSurchargeFee ∧ 0 < logoSurchargeFee) :=
  C1_calculateOrderTotal 20 true

/-! ## Claim C2: country/city whitelist validator -/

/-- C2 (counterexample to the claim as stated): with a known country
and the empty city string, `validateCountryCity` returns `null` even
though the city is not in the country's whitelist, so "null iff the
city is whitelisted" fails over all pairs. -/
theorem C2_counterexample :
    validateCountryCity (some "JO") (some "") = none
    ∧ lookupEntry "JO" COUNTRY_CITY_MAP = some ["Amman", "Irbid", "Zarqa", "Aqaba", "Salt"]
    ∧ (["Amman", "Irbid", "Zarqa", "Aqaba", "Salt"].contains "") = false := by
  decide

/-- C2 (amended): for non-empty country and city strings the validator
returns `null` iff the city is whitelisted for the country; an unknown
country yields the message listing the known countries, and a known
country with an unlisted city yields the message listing that
country's valid cities. -/
theorem C2_validateCountryCity (c ci : String) (hc : c ≠ "") (hci : ci ≠ "") :
    (validateCountryCity (some c) (some ci) = none
      ↔ ∃ cities, lookupEntry c COUNTRY_CITY_MAP = some cities ∧ ci ∈ cities)
    ∧ (lookupEntry c COUNTRY_CITY_MAP = none →
        validateCountryCity (some c) (some ci) =
          some ("Invalid country " ++ quoteSq c ++ ". Available countries are: " ++ "JO, UK"))
    ∧ (∀ cities, lookupEntry c COUNTRY_CITY_MAP = some cities → ci ∉ cities →
        validateCountryCity (some c) (some ci) =
          some ("Invalid city " ++ quoteSq ci ++ " for country " ++ quoteSq c
            ++ ". Valid cities are: " ++ String.intercalate ", " cities)) := by
  have hc' : (c == "") = false := beq_eq_false_iff_ne.mpr hc
  have hci' : (ci == "") = false := beq_eq_false_iff_ne.mpr hci
  simp only [validateCountryCity]
  rw [hc', hci']
  simp only [Bool.or_self, Bool.false_eq_true, if_false]
  cases hl : lookupEntry c COUNTRY_CITY_MAP with
  | none =>
    simp only []
    refine ⟨?_, fun _ => rfl, ?_⟩
    · constructor
      · intro h; cases h
      · rintro ⟨cities, hcs, _⟩; cases hcs
    · intro cities hcs; cases hcs
  | some cities =>
    simp only []
    refine ⟨?_, ?_, ?_⟩
    · by_cases hmem : ci ∈ cities
      · rw [if_pos (List.elem_iff.mpr hmem)]
        simp only [true_iff]
        exact ⟨cities, rfl, hmem⟩
      · rw [if_neg (fun hcont => hmem (List.elem_iff.mp hcont))]
        constructor
        · intro h; cases h
        · rintro ⟨cities2, hcs2, hm2⟩
          obtain rfl := Option.some.inj hcs2
          exact absurd hm2 hmem
    · intro h; cases h
    · intro cities2 hcs2 hm2
      obtain rfl := Option.some.inj hcs2
      rw [if_neg (fun hcont => hm2 (List.elem_iff.mp hcont))]

/-- Witness for C2 at the unknown city `Paris` in `JO`. -/
theorem C2_witness :
    (validateCountryCity (some "JO") (some "Paris") = none
      ↔ ∃ cities, lookupEntry "JO" COUNTRY_CITY_MAP = some cities ∧ "Paris" ∈ cities)
    ∧ (lookupEntry "JO" COUNTRY_CITY_MAP = none →
        validateCountryCity (some "JO") (some "Paris") =
          some ("Invalid country " ++ quoteSq "JO" ++ ". Available countries are: " ++ "JO, UK"))
    ∧ (∀ cities, lookupEntry "JO" COUNTRY_CITY_MAP = some cities → "Paris" ∉ cities →
        validateCountryCity (some "JO") (some "Paris") =
          some ("Invalid city " ++ quoteSq "Paris" ++ " for country " ++ quoteSq "JO"
            ++ ". Valid cities are: " ++ String.intercalate ", " cities)) :=
  C2_validateCountryCity "JO" "Paris" (by decide) (by decide)

/-! ## Claim C3: company-logo validator -/

/-- C3: `validateCompanyLogo` is `null` whenever the printed-logo flag
is not true, and with the flag true it returns the fixed message
exactly when none of the three logo sources is present and `null` when
at least one is. -/
theorem C3_validateCompanyLogo (cardDesign : Option CardDesign) (files : UploadedFiles)
    (existingOrder : Option StoredOrder) :
    (cardDesign = none → validateCompanyLogo cardDesign files existingOrder = none)
    ∧ (∀ cd, cardDesign = some cd → cd.includePrintedLogo ≠ some true →
        validateCompanyLogo cardDesign files existingOrder = none)
    ∧ (∀ cd, cardDesign = some cd → cd.includePrintedLogo = some true →
        (validateCompanyLogo cardDesign files existingOrder =
            some "Company logo is required when printed logo is selected"
          ↔ hasLogoValue cd = false ∧ hasUploadedFile files = false
              ∧ hasStoredLogo existingOrder = false)
        ∧ (validateCompanyLogo cardDesign files existingOrder = none
          ↔ (hasLogoValue cd = true ∨ hasUploadedFile files = true
              ∨ hasStoredLogo existingOrder = true))) := by
  refine ⟨?_, ?_, ?_⟩
  · rintro rfl; rfl
  · rintro cd rfl hne
    have hb : (cd.includePrintedLogo != some true) = true := by
      cases h : cd.includePrintedLogo with
      | none => rfl
      | some b =>
        cases b
        · rfl
        · exact absurd h hne
    simp only [validateCompanyLogo, hb, if_true]
  · rintro cd rfl htrue
    simp only [validateCompanyLogo, htrue]
    cases h1 : hasLogoValue cd <;> cases h2 : hasUploadedFile files
      <;> cases h3 : hasStoredLogo existingOrder <;> simp [h1, h2, h3]

/-- Witness for C3: flag set, no design logo, no upload, no stored
logo. -/
theorem C3_witness :
    ((some ⟨none, some true, none⟩ : Option CardDesign) = none →
      validateCompanyLogo (some ⟨none, some true, none⟩) ⟨none⟩ none = none)
    ∧ (∀ cd, (some ⟨none, some true, none⟩ : Option CardDesign) = some cd →
        cd.includePrintedLogo ≠ some true →
        validateCompanyLogo (some ⟨none, some true, none⟩) ⟨none⟩ none = none)
    ∧ (∀ cd, (some ⟨none, some true, none⟩ : Option CardDesign) = some cd →
        cd.includePrintedLogo = some true →
        (validateCompanyLogo (some ⟨none, some true, none⟩) ⟨none⟩ none =
            some "Company logo is required when printed logo is selected"
          ↔ hasLogoValue cd = false ∧ hasUploadedFile ⟨none⟩ = false
              ∧ hasStoredLogo none = false)
        ∧ (validateCompanyLogo (some ⟨none, some true, none⟩) ⟨none⟩ none = none
          ↔ (hasLogoValue cd = true ∨ hasUploadedFile ⟨none⟩ = true
              ∨ hasStoredLogo none = true))) :=
  C3_validateCompanyLogo (some ⟨none, some true, none⟩) ⟨none⟩ none

/-! ## Claim C8: product images invariant -/

/-- C8: after every save the product's image list is non-empty — the
default image is pushed when the list is empty at save time. -/
theorem C8_images_nonempty (now : Nat) (p : ProductDoc) :
    0 < (saveProduct now p).images.length := by
  unfold saveProduct preSaveDefaultImage
  split
  · simp
  · next h => exact List.length_pos.mpr h

/-! ## Claim C10: delivery validation skipped without a deliveryInfo object -/

/-- C10: with no `deliveryInfo` object in the body,
`validateDeliveryInfo` returns `null` for every existing order (the
whitelist is never consulted); and when a `deliveryInfo` object is
supplied with both country and city truthy, the existing-order
fallback is irrelevant. -/
theorem C10_validateDeliveryInfo :
    (∀ existingOrder, validateDeliveryInfo none existingOrder = none)
    ∧ (∀ d ex1 ex2, strTruthy d.country = true → strTruthy d.city = true →
        validateDeliveryInfo (some d) ex1 = validateDeliveryInfo (some d) ex2) := by
  constructor
  · intro existingOrder; rfl
  · intro d ex1 ex2 hc hci
    simp [validateDeliveryInfo, jsOrStr, hc, hci]

/-- Witness for C10: an existing order whose stored city is not
whitelisted is ignored both when no deliveryInfo is supplied and when a
full one is. -/
theorem C10_witness :
    validateDeliveryInfo none (some ⟨none, some ⟨some "JO", some "Paris", none, none⟩⟩) = none
    ∧ validateDeliveryInfo (some ⟨some "JO", some "Amman", none, none⟩)
        (some ⟨none, some ⟨some "JO", some "Paris", none, none⟩⟩)
      = validateDeliveryInfo (some ⟨some "JO", some "Amman", none, none⟩) none :=
  ⟨C10_validateDeliveryInfo.1 (some ⟨none, some ⟨some "JO", some "Paris", none, none⟩⟩),
   C10_validateDeliveryInfo.2 ⟨some "JO", some "Amman", none, none⟩
     (some ⟨none, some ⟨some "JO", some "Paris", none, none⟩⟩) none rfl rfl⟩

/-! ## Claim C4: status transition messages -/

/-- C4: a status transition to a non-empty recognized status succeeds,
persists exactly the requested status, and yields the bespoke message
for confirmed/printed/shipped/delivered and the generic message
containing "status updated" for every other accepted status. -/
theorem C4_updateOrderStatus (findOrder : String → Option StatusOrder) (id : String)
    (notes : Option String) (order : StatusOrder) (s : String)
    (hf : findOrder id = some order) (hs : s ≠ "") (hv : validStatuses.contains s = true) :
    ∃ o2 msg, updateOrderStatus findOrder id (some s) notes = .ok (o2, msg)
      ∧ o2.status = s
      ∧ (s = "confirmed" → msg = "Order confirmed! Your NFC card will be printed soon.")
      ∧ (s = "printed" → msg = "Your NFC card has been printed and is ready for shipping!")
      ∧ (s = "shipped" → msg = "Your NFC card has been shipped! You will receive it soon.")
      ∧ (s = "delivered" → msg = "Order delivered successfully! Thank you for your business.")
      ∧ (s ≠ "confirmed" → s ≠ "printed" → s ≠ "shipped" → s ≠ "delivered" →
          msg = "Order status updated to " ++ s
          ∧ ∃ pre post, msg = pre ++ ("status updated" ++ post)) := by
  have hs' : (s == "") = false := beq_eq_false_iff_ne.mpr hs
  simp only [updateOrderStatus, hs', Bool.false_eq_true, if_false]
  rw [hf]
  simp only [updateStatus, hv, if_true]
  refine ⟨_, _, rfl, ?_, ?_, ?_, ?_, ?_, ?_⟩
  · split <;> rfl
  · intro h; subst h; rfl
  · intro h; subst h; rfl
  · intro h; subst h; rfl
  · intro h; subst h; rfl
  · intro h1 h2 h3 h4
    have e1 : (s == "confirmed") = false := beq_eq_false_iff_ne.mpr h1
    have e2 : (s == "printed") = false := beq_eq_false_iff_ne.mpr h2
    have e3 : (s == "shipped") = false := beq_eq_false_iff_ne.mpr h3
    have e4 : (s == "delivered") = false := beq_eq_false_iff_ne.mpr h4
    simp only [e1, e2, e3, e4, Bool.false_eq_true, if_false]
    refine ⟨trivial, "Order ", " to " ++ s, ?_⟩
    rw [← String.append_assoc, ← String.append_assoc]
    rfl

/-- Witness for C4: transition to `confirmed` on a pending order. -/
theorem C4_witness :
    ∃ o2 msg,
      updateOrderStatus (fun _ => some ⟨"pending", none⟩) "o1" (some "confirmed") none = .ok (o2, msg)
      ∧ o2.status = "confirmed"
      ∧ ("confirmed" = "confirmed" → msg = "Order confirmed! Your NFC card will be printed soon.")
      ∧ ("confirmed" = "printed" → msg = "Your NFC card has been printed and is ready for shipping!")
      ∧ ("confirmed" = "shipped" → msg = "Your NFC card has been shipped! You will receive it soon.")
      ∧ ("confirmed" = "delivered" → msg = "Order delivered successfully! Thank you for your business.")
      ∧ ("confirmed" ≠ "confirmed" → "confirmed" ≠ "printed" → "confirmed" ≠ "shipped" →
          "confirmed" ≠ "delivered" →
          msg = "Order status updated to " ++ "confirmed"
          ∧ ∃ pre post, msg = pre ++ ("status updated" ++ post)) :=
  C4_updateOrderStatus (fun _ => some ⟨"pending", none⟩) "o1" none ⟨"pending", none⟩ "confirmed"
    rfl (by decide) (by decide)

/-! ## Helper lemmas about the parseFormData pipeline -/

theorem collectOne_cd_sub (acc : ParsedGroups) (kv : String × JSValue) :
    ∀ x ∈ (collectOne acc kv).cardDesign, x.2 = kv.2 ∨ x ∈ acc.cardDesign := by
  intro x hx
  unfold collectOne at hx
  by_cases h1 : startsWithS kv.1 "personalInfo[" = true
  · rw [if_pos h1] at hx
    exact Or.inr hx
  · rw [if_neg h1] at hx
    by_cases h2 : startsWithS kv.1 "cardDesign[" = true
    · rw [if_pos h2] at hx
      rcases mem_setEntry hx with h | h
      · exact Or.inl (by rw [h])
      · exact Or.inr h
    · rw [if_neg h2] at hx
      by_cases h3 : startsWithS kv.1 "deliveryInfo[" = true
      · rw [if_pos h3] at hx
        exact Or.inr hx
      · rw [if_neg h3] at hx
        exact Or.inr hx

theorem foldl_collect_cd (P : JSValue → Prop) :
    ∀ (body : List (String × JSValue)) (acc : ParsedGroups),
      (∀ kv ∈ body, P kv.2) → (∀ x ∈ acc.cardDesign, P x.2) →
      ∀ x ∈ (body.foldl collectOne acc).cardDesign, P x.2 := by
  intro body
  induction body with
  | nil => intro acc _ hacc; exact hacc
  | cons kv rest ih =>
    intro acc hb hacc
    have hkv : P kv.2 := hb kv (List.mem_cons_self _ _)
    have hrest : ∀ x ∈ rest, P x.2 := fun x hx => hb x (List.mem_cons_of_mem _ hx)
    have hacc2 : ∀ x ∈ (collectOne acc kv).cardDesign, P x.2 := by
      intro x hx
      rcases collectOne_cd_sub acc kv x hx with h | h
      · rw [h]; exact hkv
      · exact hacc x h
    exact ih (collectOne acc kv) hrest hacc2

theorem coerce_lookup_ne {k k2 : String} (h : ¬ k2 = k) (g : List (String × JSValue)) :
    lookupEntry k (coerceBoolAt k2 g) = lookupEntry k g := by
  unfold coerceBoolAt
  cases hl : lookupEntry k2 g with
  | none => rfl
  | some v => exact lookupEntry_setEntry_ne h _ g

theorem coerce_lookup_self (k : String) (g : List (String × JSValue)) (v : JSValue)
    (h : lookupEntry k g = some v) :
    lookupEntry k (coerceBoolAt k g) = some (.vBool (v == .vStr "true" || v == .vBool true)) := by
  unfold coerceBoolAt
  rw [h]
  exact lookupEntry_setEntry_self k _ g

theorem colorStep_ok (g : List (String × JSValue))
    (h : ∀ v, lookupEntry "color" g = some v → v.isStr = true) :
    ∃ g2, colorStep g = .ok g2 := by
  unfold colorStep
  cases hl : lookupEntry "color" g with
  | none => exact ⟨g, rfl⟩
  | some v =>
    have hv := h v hl
    cases v with
    | vStr s =>
      simp only []
      split_ifs <;> exact ⟨_, rfl⟩
    | vNum n => simp [JSValue.isStr] at hv
    | vBool b => simp [JSValue.isStr] at hv
    | vNull => simp [JSValue.isStr] at hv

theorem colorStep_lookup_ne {g g2 : List (String × JSValue)} (h : colorStep g = .ok g2)
    {k : String} (hk : ¬ k = "color") : lookupEntry k g2 = lookupEntry k g := by
  unfold colorStep at h
  cases hl : lookupEntry "color" g with
  | none =>
    rw [hl] at h
    obtain rfl := Except.ok.inj h
    rfl
  | some v =>
    rw [hl] at h
    simp only [] at h
    by_cases ht : jsTruthy v = true
    · rw [if_pos ht] at h
      cases v with
      | vStr s =>
        simp only [] at h
        split_ifs at h
        · obtain rfl := Except.ok.inj h
          exact lookupEntry_setEntry_ne (fun hc => hk hc.symm) _ g
        · obtain rfl := Except.ok.inj h
          exact lookupEntry_setEntry_ne (fun hc => hk hc.symm) _ g
        · obtain rfl := Except.ok.inj h
          rfl
      | vNum n => cases h
      | vBool b => cases h
      | vNull => cases h
    · rw [if_neg ht] at h
      obtain rfl := Except.ok.inj h
      rfl

theorem foldl_collect_id :
    ∀ body : List (String × JSValue),
      (∀ kv ∈ body, startsWithS kv.1 "personalInfo[" = false
        ∧ startsWithS kv.1 "cardDesign[" = false
        ∧ startsWithS kv.1 "deliveryInfo[" = false) →
      ∀ acc, body.foldl collectOne acc = acc := by
  intro body
  induction body with
  | nil => intro _ acc; rfl
  | cons kv rest ih =>
    intro hb acc
    have hkv := hb kv (List.mem_cons_self _ _)
    have hone : collectOne acc kv = acc := by
      simp only [collectOne, hkv.1, hkv.2.1, hkv.2.2, Bool.false_eq_true, if_false]
    have hstep : (kv :: rest).foldl collectOne acc = rest.foldl collectOne acc := by
      rw [List.foldl_cons, hone]
    rw [hstep]
    exact ih (fun x hx => hb x (List.mem_cons_of_mem _ hx)) acc

/-! ## Claim C7: parseFormData never throws -/

/-- C7 (counterexample to the claim as stated): a non-string value
under `cardDesign[color]` makes `parseFormData` throw a TypeError
(`toLowerCase` is called on it), so "never throws for every input
body" fails. -/
theorem C7_counterexample :
    exErr (parseFormData [("cardDesign[color]", .vNum 5)]) =
      some "TypeError: toLowerCase is not a function"
    ∧ exIsOk (parseFormData [("cardDesign[color]", .vNum 5)]) = false := by
  decide

/-- C7 (amended): `parseFormData` does not throw whenever every body
value is a string (as in a form-encoded body) — a truthy non-string
value under a `cardDesign[color]` bracket key is the one way to make
it throw — and a body with no bracket-path keys is returned unchanged
with the three nested groups unset. -/
theorem C7_parseFormData (body : List (String × JSValue)) :
    (body.all (fun kv => kv.2.isStr) = true → exIsOk (parseFormData body) = true)
    ∧ (body.all (fun kv => !(startsWithS kv.1 "personalInfo[" || startsWithS kv.1 "cardDesign["
          || startsWithS kv.1 "deliveryInfo[")) = true →
        parseFormData body = .ok ⟨body, none, none, none⟩) := by
  constructor
  · intro hall
    have hP : ∀ x ∈ (collectGroups body).cardDesign, x.2.isStr = true := by
      refine foldl_collect_cd (fun v => v.isStr = true) body ⟨[], [], []⟩ ?_ ?_
      · intro kv hkv
        exact List.all_eq_true.mp hall kv hkv
      · intro x hx
        exact absurd hx (List.not_mem_nil x)
    have hcolor : ∀ v,
        lookupEntry "color" (coerceBoolAt "includePrintedLogo" (collectGroups body).cardDesign)
          = some v → v.isStr = true := by
      intro v hv
      rw [coerce_lookup_ne (by decide)] at hv
      exact hP ("color", v) (lookupEntry_mem hv)
    obtain ⟨g2, hg2⟩ := colorStep_ok _ hcolor
    have hcd : ∃ X, cdResult (collectGroups body).cardDesign = .ok X := by
      unfold cdResult
      by_cases he : (collectGroups body).cardDesign.isEmpty = true
      · rw [if_pos he]; exact ⟨none, rfl⟩
      · rw [if_neg he, hg2]; exact ⟨some g2, rfl⟩
    obtain ⟨X, hcd⟩ := hcd
    simp only [parseFormData, hcd]
    rfl
  · intro hall
    have hid : collectGroups body = ⟨[], [], []⟩ := by
      refine foldl_collect_id body ?_ ⟨[], [], []⟩
      intro kv hkv
      have h2 := List.all_eq_true.mp hall kv hkv
      simp only [Bool.not_eq_true', Bool.or_eq_false_iff] at h2
      exact ⟨h2.1.1, h2.1.2, h2.2⟩
    simp only [collectGroups] at hid
    simp only [parseFormData, collectGroups, hid]
    rfl

/-- Witness for C7: an all-string body parses, and a body with no
bracket keys is returned unchanged. -/
theorem C7_witness :
    exIsOk (parseFormData [("cardDesign[color]", .vStr "#000")]) = true
    ∧ parseFormData [("foo", .vNum 3)] = .ok ⟨[("foo", .vNum 3)], none, none, none⟩ :=
  ⟨(C7_parseFormData [("cardDesign[color]", .vStr "#000")]).1 (by decide),
   (C7_parseFormData [("foo", .vNum 3)]).2 (by decide)⟩

/-! ## Claim C6: string-boolean coercion -/

/-- C6 (counterexample to the claim as stated): the value `"yes"`
under `cardDesign[includePrintedLogo]` is not left untouched — it is
coerced to the boolean `false`. -/
theorem C6_counterexample :
    iplResult (parseFormData [("cardDesign[includePrintedLogo]", .vStr "yes")]) =
      some (.vBool false)
    ∧ (JSValue.vBool false == JSValue.vStr "yes") = false := by
  decide

/-- C6 (amended): whenever `parseFormData` succeeds, the value
collected under `cardDesign[includePrintedLogo]` or
`deliveryInfo[useSameContact]` is always coerced to the boolean
`v === 'true' || v === true` — so `"true"` becomes `true`, `"false"`
becomes `false`, and every other value becomes `false` rather than
being left untouched. -/
theorem C6_parseFormData (body : List (String × JSValue)) (r : ParsedBody)
    (h : parseFormData body = .ok r) :
    (∀ v, lookupEntry "includePrintedLogo" (collectGroups body).cardDesign = some v →
      ∃ g, r.cardDesign = some g
        ∧ lookupEntry "includePrintedLogo" g =
            some (.vBool (v == .vStr "true" || v == .vBool true)))
    ∧ (∀ v, lookupEntry "useSameContact" (collectGroups body).deliveryInfo = some v →
      ∃ g, r.deliveryInfo = some g
        ∧ lookupEntry "useSameContact" g =
            some (.vBool (v == .vStr "true" || v == .vBool true))) := by
  simp only [parseFormData] at h
  split at h
  next e heq => cases h
  next cdG heq =>
    obtain rfl := Except.ok.inj h
    constructor
    · intro v hv
      have hne : (collectGroups body).cardDesign.isEmpty = false := by
        cases hg : (collectGroups body).cardDesign with
        | nil => rw [hg] at hv; cases hv
        | cons a l => rfl
      unfold cdResult at heq
      rw [if_neg (by simp [hne])] at heq
      cases hcs : colorStep (coerceBoolAt "includePrintedLogo" (collectGroups body).cardDesign) with
      | error e => rw [hcs] at heq; cases heq
      | ok g2 =>
        rw [hcs] at heq
        obtain rfl := Except.ok.inj heq
        refine ⟨g2, rfl, ?_⟩
        rw [colorStep_lookup_ne hcs (by decide)]
        exact coerce_lookup_self _ _ v hv
    · intro v hv
      have hne : (collectGroups body).deliveryInfo.isEmpty = false := by
        cases hg : (collectGroups body).deliveryInfo with
        | nil => rw [hg] at hv; cases hv
        | cons a l => rfl
      refine ⟨coerceBoolAt "useSameContact" (collectGroups body).deliveryInfo, ?_, ?_⟩
      · simp only [hne, Bool.false_eq_true, if_false]
      · exact coerce_lookup_self _ _ v hv

/-- Witness for C6: `"false"` becomes the boolean `false` and `"true"`
the boolean `true`. -/
theorem C6_witness :
    (∀ v, lookupEntry "includePrintedLogo" (collectGroups bodyW6).cardDesign = some v →
      ∃ g, parsedW6.cardDesign = some g
        ∧ lookupEntry "includePrintedLogo" g =
            some (.vBool (v == .vStr "true" || v == .vBool true)))
    ∧ (∀ v, lookupEntry "useSameContact" (collectGroups bodyW6).deliveryInfo = some v →
      ∃ g, parsedW6.deliveryInfo = some g
        ∧ lookupEntry "useSameContact" g =
            some (.vBool (v == .vStr "true" || v == .vBool true))) :=
  C6_parseFormData bodyW6 parsedW6 rfl

/-! ## Claim C9: server-side pricing overwrites client input -/

theorem createOrder_ignores_pricing (findProduct : String → Option ProductRec) (user : String)
    (files : UploadedFiles) (body : OrderBody) (pp ls tt : Option Int) :
    createOrder findProduct user files
        { body with productPrice := pp, logoSurcharge := ls, total := tt }
      = createOrder findProduct user files body := by
  obtain ⟨pi, cd, di, prod, cust, cb, st, nts, p0, l0, t0⟩ := body
  obtain ⟨cl⟩ := files
  cases cl with
  | none => rfl
  | some l =>
    cases l with
    | nil => rfl
    | cons f t => rfl

/-- C9: whenever order creation succeeds, the persisted pricing fields
are derived from the referenced product's stored price via
`calculateOrderTotal`, and any client-supplied `productPrice`,
`logoSurcharge` or `total` in the body has no effect on the outcome. -/
theorem C9_createOrder (findProduct : String → Option ProductRec) (user : String)
    (files : UploadedFiles) (body : OrderBody) (order : CreatedOrder)
    (h : createOrder findProduct user files body = .ok order) :
    (∃ pid product, body.product = some pid ∧ findProduct pid = some product
      ∧ order.productPrice = product.price
      ∧ (order.total, order.logoSurcharge) =
          calculateOrderTotal product.price
            (optTruthy (order.cardDesign.bind (fun c => c.includePrintedLogo))))
    ∧ (∀ pp ls tt, createOrder findProduct user files
        { body with productPrice := pp, logoSurcharge := ls, total := tt } = .ok order) := by
  have h0 := h
  constructor
  · simp only [createOrder] at h
    split at h
    next e heq => cases h
    next heq =>
      split at h
      next heq2 => cases h
      next product heq2 =>
        split at h
        next e heq3 => cases h
        next heq3 =>
          split at h
          next e heq4 => cases h
          next heq4 =>
            obtain rfl := Except.ok.inj h
            cases hb : body.product with
            | none =>
              rw [show (setOrderDefaults user body).product = body.product from rfl, hb] at heq2
              cases heq2
            | some pid =>
              rw [show (setOrderDefaults user body).product = body.product from rfl, hb] at heq2
              exact ⟨pid, product, rfl, heq2, rfl, rfl⟩
  · intro pp ls tt
    rw [createOrder_ignores_pricing]
    exact h0

/-- Witness for C9 at a concrete creation with bogus client pricing. -/
theorem C9_witness :
    (∃ pid product, bodyW9.product = some pid ∧ findProductW9 pid = some product
      ∧ orderW9.productPrice = product.price
      ∧ (orderW9.total, orderW9.logoSurcharge) =
          calculateOrderTotal product.price
            (optTruthy (orderW9.cardDesign.bind (fun c => c.includePrintedLogo))))
    ∧ (∀ pp ls tt, createOrder findProductW9 "u1" noUploads
        { bodyW9 with productPrice := pp, logoSurcharge := ls, total := tt } = .ok orderW9) :=
  C9_createOrder findProductW9 "u1" noUploads bodyW9 orderW9 rfl

/-! ## Claim C5: the update payload and the raw logo path -/

/-- C5: at a concrete update with an uploaded logo stored under
`.../public/uploads/companyLogo/`, the `$set` payload carries the raw
multer `file.path`, not the public-root-relative path that
`getRelativeFilePath` (the repo's own helper for paths stored in the
database) resolves; and an update supplying no recognized field is
rejected with the 400 "No valid fields provided for update" error
before any write. -/
theorem C5_rawPath_bug :
    updateOrder (fun _ => some ⟨none, none⟩) "o1" filesW5 emptyOrderBody =
      .ok [("cardDesign.companyLogo", .uStr "/app/public/uploads/companyLogo/logo-1.png")]
    ∧ getRelativeFilePath (some ⟨"/app/public/uploads/companyLogo/logo-1.png", "logo-1.png"⟩) =
        some "/uploads/companyLogo/logo-1.png"
    ∧ ("/app/public/uploads/companyLogo/logo-1.png" == "/uploads/companyLogo/logo-1.png") = false
    ∧ updateOrder (fun _ => some ⟨none, none⟩) "o1" noUploads emptyOrderBody =
        .error ("No valid fields provided for update", 400) :=
  ⟨rfl, rfl, by decide, rfl⟩
